import Mathlib

set_option maxRecDepth 16384

/-!
Shallow embedding of the sia-dc receiver (SIA-DCS → HTTP forwarder) core:
the event mapper (`app/services/mapper.py`), the forward queue and the
receiver's enqueue (`app/services/bus.py`, `app/services/sia_server.py`),
the forward worker's retry loop (`app/services/forwarder.py`), account
construction (`app/services/sia_server.py`), and the frame encoder /
CRC of the test traffic generator (`sia_simulator.py`).

Python strings appearing at the mapper/forwarder level are modelled as
Lean `String`; in the simulator, where the character/byte distinction of
Python `str` vs `str.encode()` matters, strings are modelled as lists of
Unicode code points (`PyStr := List Nat`) with an explicit UTF-8 encoder.
Optional values (`None`) are `Option`; Python truthiness of a string
(`if s:`) is `s ≠ ""` on a present string.
-/

namespace SiaDC

/-- Python `str.zfill(width)`: left-pad with `'0'` up to `width`; a single
leading `'+'`/`'-'` sign stays in front of the padding. -/
def pyZfill (s : String) (width : Nat) : String :=
  if width ≤ s.length then s
  else
    let pad := List.replicate (width - s.length) '0'
    match s.data with
    | c :: rest =>
      if c = '+' ∨ c = '-' then String.mk (c :: (pad ++ rest))
      else String.mk (pad ++ s.data)
    | [] => String.mk pad

/-- Python `str.upper()` restricted to ASCII (SIA codes are ASCII letters). -/
def pyUpper (s : String) : String := String.mk (s.data.map Char.toUpper)

/-- Python `str.replace('"', '\\"')`: escape every double quote as `\"`. -/
def escapeQuotes (s : String) : String :=
  String.mk (s.data.flatMap fun c => if c = '"' then ['\\', '"'] else [c])

/-- `ForwardItem` (`app/schemas/events.py`): the in-memory unit enqueued for
downstream delivery.  `timestamp` is modelled as seconds since the Unix
epoch (the code holds an aware-or-naive `datetime`; naive values are
reinterpreted as UTC by the mapper, so a UTC instant is faithful).
`extras` is `Dict[str, Any]`; a value is modelled post-`str()` as
`Option String`, `none` standing for Python `None`. -/
structure ForwardItem where
  account : Option String := none
  message_type : Option String := none
  code : Option String := none
  zone : Option String := none
  partition : Option String := none
  receiver : Option String := none
  timestamp : Option Nat := none
  raw : Option String := none
  extras : List (String × Option String) := []
deriving Repr, DecidableEq

/-- `DEFAULT_HEARTBEAT_CODES` (`app/services/mapper.py`). -/
def DEFAULT_HEARTBEAT_CODES : List String := ["RP", "NP", "YK", "HE", "HB"]

/-- `_is_heartbeat` (`app/services/mapper.py`), parametrised by the
configured `settings.HEARTBEAT_CODES` list (default `[]`):
`if not code: return False; hb_set = set(HEARTBEAT_CODES or []) or DEFAULT;
return code.upper() in hb_set`. -/
def isHeartbeat (heartbeatCodes : List String) (code : Option String) : Bool :=
  match code with
  | none => false
  | some c =>
    if c = "" then false
    else
      let hbSet := if heartbeatCodes.isEmpty then DEFAULT_HEARTBEAT_CODES else heartbeatCodes
      decide (pyUpper c ∈ hbSet)

/-- Python `" ".join(parts)`. -/
def joinSpace : List String → String
  | [] => ""
  | [x] => x
  | x :: xs => x ++ " " ++ joinSpace xs

/-- `_extras_to_message` (`app/services/mapper.py`): skip `None` values,
render each remaining entry as `key="value"` with embedded `"` escaped as
`\"`, and join with single spaces. -/
def extrasToMessage (extras : List (String × Option String)) : String :=
  joinSpace
    (extras.filterMap fun kv =>
      match kv.2 with
      | none => none
      | some v => some (kv.1 ++ "=\"" ++ escapeQuotes v ++ "\""))

/-! ### Calendar / timezone rendering (`_to_jakarta_timestamp`)

The application timezone defaults to `Asia/Jakarta` (WIB), a fixed
UTC+07:00 zone with no daylight saving; the `zoneinfo` conversion is
modelled as adding the zone's offset in seconds to the UTC instant.
`strftime("%Y-%m-%d %H:%M:%S")` is modelled by Gregorian civil-date
arithmetic on the shifted instant. -/

/-- Civil date from days since 1970-01-01 (proleptic Gregorian). -/
def civilFromDays (z : Nat) : Nat × Nat × Nat :=
  let z' := z + 719468
  let era := z' / 146097
  let doe := z' % 146097
  let yoe := (doe - doe / 1460 + doe / 36524 - doe / 146096) / 365
  let y := yoe + era * 400
  let doy := doe - (365 * yoe + yoe / 4 - yoe / 100)
  let mp := (5 * doy + 2) / 153
  let d := doy - (153 * mp + 2) / 5 + 1
  let m := if mp < 10 then mp + 3 else mp - 9
  (if m ≤ 2 then y + 1 else y, m, d)

/-- Render a natural number zero-padded to (at least) `w` decimal digits. -/
def padNum (w : Nat) (n : Nat) : String :=
  let ds := Nat.toDigits 10 n
  String.mk (List.replicate (w - ds.length) '0' ++ ds)

/-- `strftime("%Y-%m-%d %H:%M:%S")` of an epoch-seconds instant already
shifted into the target timezone. -/
def formatDateTime (t : Nat) : String :=
  let (y, m, d) := civilFromDays (t / 86400)
  let secs := t % 86400
  padNum 4 y ++ "-" ++ padNum 2 m ++ "-" ++ padNum 2 d ++ " " ++
    padNum 2 (secs / 3600) ++ ":" ++ padNum 2 ((secs / 60) % 60) ++ ":" ++ padNum 2 (secs % 60)

/-- UTC offset (seconds) of `Asia/Jakarta`, the default `APP_TIMEZONE`. -/
def jakartaOffset : Nat := 7 * 3600

/-- `_to_jakarta_timestamp` (`app/services/mapper.py`), parametrised by the
configured timezone's UTC offset and by the clock (`now`, a UTC instant):
`when = dt or datetime.now(UTC)` (a `datetime` is always truthy, so this is
a `None` test), naive values get UTC attached, then
`when.astimezone(tz).strftime("%Y-%m-%d %H:%M:%S")`. -/
def toJakartaTimestamp (tzOffset : Nat) (dt : Option Nat) (now : Nat) : String :=
  let when := dt.getD now
  formatDateTime (when + tzOffset)

/-- The JSON body built by `map_to_saras_payload` (`app/services/mapper.py`). -/
structure SarasPayload where
  account_code : String
  event : String
  partition : Option String
  zone : Option String
  extra_message : String
  timestamp : String
  is_heartbeat : Bool
deriving Repr, DecidableEq

/-- `map_to_saras_payload` (`app/services/mapper.py`), parametrised by the
configured heartbeat-code list, the timezone offset and the clock. -/
def mapToSarasPayload (heartbeatCodes : List String) (tzOffset : Nat) (now : Nat)
    (e : ForwardItem) : SarasPayload :=
  let event_str := match e.code with
    | none => "UNKN"
    | some c => if c = "" then "UNKN" else c
  let partition := match e.partition with
    | none => none
    | some p => if p = "" then none else some (pyZfill p 2)
  let zone := match e.zone with
    | none => none
    | some z => if z = "" then none else some (pyZfill z 3)
  let extrasStr := extrasToMessage e.extras
  let extrasStr := match e.raw with
    | none => extrasStr
    | some r =>
      if r = "" then extrasStr
      else (if extrasStr = "" then "" else extrasStr ++ " ") ++ "raw=\"" ++ r ++ "\""
  { account_code := match e.account with
      | none => ""
      | some a => if a = "" then "" else a
    event := event_str
    partition := partition
    zone := zone
    extra_message := extrasStr
    timestamp := toJakartaTimestamp tzOffset e.timestamp now
    is_heartbeat := isHeartbeat heartbeatCodes e.code }

/-! ### Python strings at the byte/char level (`sia_simulator.py`)

A Python `str` is a sequence of Unicode code points; `len(s)` counts code
points while `str.encode(s)` yields UTF-8 bytes.  `PyStr` models the code
point sequence. -/

/-- A Python `str` as its list of Unicode code points. -/
abbrev PyStr := List Nat

/-- Code points of a Lean string literal (all our literals are ASCII). -/
def strCodes (s : String) : PyStr := s.data.map Char.toNat

/-- UTF-8 encoding of one code point. -/
def utf8Bytes (c : Nat) : List Nat :=
  if c < 0x80 then [c]
  else if c < 0x800 then [0xC0 + c / 64, 0x80 + c % 64]
  else if c < 0x10000 then [0xE0 + c / 4096, 0x80 + (c / 64) % 64, 0x80 + c % 64]
  else [0xF0 + c / 262144, 0x80 + (c / 4096) % 64, 0x80 + (c / 64) % 64, 0x80 + c % 64]

/-- Python `str.encode()`: UTF-8 bytes of the string. -/
def pyEncode (s : PyStr) : List Nat := s.flatMap utf8Bytes

/-- `str.zfill` on code-point strings (`'0'` = 48, `'+'` = 43, `'-'` = 45). -/
def pyZfillCodes (s : PyStr) (width : Nat) : PyStr :=
  if width ≤ s.length then s
  else
    let pad := List.replicate (width - s.length) 48
    match s with
    | c :: rest => if c = 43 ∨ c = 45 then c :: (pad ++ rest) else pad ++ (c :: rest)
    | [] => pad

/-- The inner 8-round bit loop of `calculate_crc` (`sia_simulator.py`):
`temp ^= crc & 1; crc >>= 1; if temp & 1: crc ^= 0xA001; temp >>= 1`. -/
def crcIter : Nat → Nat → Nat → Nat
  | 0, _, crc => crc
  | n + 1, temp, crc =>
    let temp1 := temp ^^^ (crc &&& 1)
    let crc1 := crc >>> 1
    let crc2 := if temp1 &&& 1 ≠ 0 then crc1 ^^^ 0xA001 else crc1
    crcIter n (temp1 >>> 1) crc2

/-- The accumulated CRC value of `calculate_crc` over the UTF-8 bytes
(`for letter in str.encode(data)`), starting from `crc = 0`. -/
def calculateCrcVal (bs : List Nat) : Nat :=
  bs.foldl (fun crc letter => crcIter 8 letter crc) 0

/-- `calculate_crc` (`sia_simulator.py`): CRC value rendered with
`("%x" % crc).upper().zfill(4)`. -/
def calculate_crc (data : PyStr) : PyStr :=
  pyZfillCodes
    (((Nat.toDigits 16 (calculateCrcVal (pyEncode data))).map Char.toUpper).map Char.toNat) 4

/-- Modelled from the spec's words (comparison definition for the CRC
claim): CRC-16/ARC — initial 0x0000, polynomial 0xA001, reflected input
and output, no final XOR — in the standard byte-at-a-time form:
`crc ^= byte`, then 8 rounds of `crc = (crc >> 1) ^ 0xA001` if the low
bit is set else `crc = crc >> 1`. -/
def crc16_arc_spec (bs : List Nat) : Nat :=
  bs.foldl
    (fun crc b =>
      (fun c => if c &&& 1 ≠ 0 then (c >>> 1) ^^^ 0xA001 else c >>> 1)^[8] (crc ^^^ b))
    0

/-- Python `f"{n:04X}"`: uppercase hex, zero-padded to a minimum width
of 4. -/
def format04X (n : Nat) : PyStr :=
  let ds := ((Nat.toDigits 16 n).map Char.toUpper).map Char.toNat
  List.replicate (4 - ds.length) 48 ++ ds

/-- Python `f"{n:04d}"`: decimal, zero-padded to a minimum width of 4. -/
def format04d (n : Nat) : PyStr :=
  let ds := (Nat.toDigits 10 n).map Char.toNat
  List.replicate (4 - ds.length) 48 ++ ds

/-- The body built by `SIASimulator.build_sia_message` (`sia_simulator.py`):
everything after the CRC and LENGTH fields.  `sequence` is the simulator's
counter before the call (the method first does `self.sequence += 1`);
`timestamp` is the `datetime.now().strftime("_%H:%M:%S,%m-%d-%Y")` string,
passed in as the clock is external. -/
def sia_body (account : PyStr) (sequence : Nat) (timestamp : PyStr)
    (code zone partition receiver extra_data : PyStr) : PyStr :=
  let seq := format04d (sequence + 1)
  let zone_text := if zone ≠ strCodes "000" then pyZfillCodes zone 3 else []
  let message_content := strCodes "N" ++ code ++ zone_text ++ extra_data
  let message_block :=
    strCodes "[#" ++ account ++ strCodes "|" ++ message_content ++ strCodes "]" ++ timestamp
  strCodes "\"SIA-DCS\"" ++ seq ++ strCodes "R" ++ receiver ++ strCodes "L" ++ partition ++
    strCodes "#" ++ account ++ message_block

/-- `SIASimulator.build_sia_message` (`sia_simulator.py`):
`<CRC><LENGTH><body>` with `length_hex = f"{len(body):04X}"` (`len` of a
Python `str` counts characters) and `crc = calculate_crc(body)`. -/
def build_sia_message (account : PyStr) (sequence : Nat) (timestamp : PyStr)
    (code zone partition receiver extra_data : PyStr) : PyStr :=
  let body := sia_body account sequence timestamp code zone partition receiver extra_data
  let length_hex := format04X body.length
  let crc := calculate_crc body
  crc ++ length_hex ++ body

/-! ### Forward queue and the receiver's enqueue (`bus.py`, `sia_server.py`) -/

/-- `forward_queue` is created as `asyncio.Queue()` (`app/services/bus.py`):
the default `maxsize` is 0, meaning unbounded. -/
def forward_queue_maxsize : Nat := 0

/-- `asyncio.Queue.full()`: true iff `maxsize > 0` and `qsize() >= maxsize`. -/
def asyncioQueueFull (maxsize : Nat) (q : List ForwardItem) : Bool :=
  decide (0 < maxsize) && decide (maxsize ≤ q.length)

/-- Outcome of awaiting `Queue.put`: either the item is appended, or the
coroutine suspends until space frees up (it never drops the item). -/
inductive PutOutcome where
  | done (q : List ForwardItem)
  | blocked
deriving Repr, DecidableEq

/-- `asyncio.Queue.put` semantics on the queue contents: append when the
queue is not full, otherwise suspend. -/
def asyncioPut (maxsize : Nat) (q : List ForwardItem) (it : ForwardItem) : PutOutcome :=
  if asyncioQueueFull maxsize q then .blocked else .done (q ++ [it])

/-- The enqueue performed by `SIAService._on_event`
(`app/services/sia_server.py`): `await forward_queue.put(item)` on the
global queue. -/
def onEventEnqueue (q : List ForwardItem) (it : ForwardItem) : PutOutcome :=
  asyncioPut forward_queue_maxsize q it

/-! ### Forward worker retry loop (`forwarder.py`) -/

/-- Observable trace of one `_forward_with_retries` run: how many POSTs
were attempted, which backoff delays were slept (in order), and whether
the item was dropped after exhaustion. -/
structure RetryRun where
  posts : Nat
  sleeps : List ℚ
  dropped : Bool
deriving Repr, DecidableEq

/-- The `while True` loop of `_forward_with_retries`
(`app/services/forwarder.py`), with the HTTP POST abstracted to a success
predicate per attempt index:
`POST; on 2xx return; attempt += 1; if attempt >= max_retries: drop;
sleep(delay); delay *= 2`.  The loop runs at most `maxRetries` iterations
when every POST fails (and at most one more when `maxRetries = 0`), since
`attempt` increases by one per iteration; `fuel = maxRetries + 1` is
therefore never exhausted. -/
def retryAux (is2xx : Nat → Bool) (maxRetries : Nat) :
    Nat → Nat → ℚ → RetryRun
  | 0, _, _ => ⟨0, [], false⟩
  | fuel + 1, attempt, delay =>
    if is2xx attempt then ⟨1, [], false⟩
    else if maxRetries ≤ attempt + 1 then ⟨1, [], true⟩
    else
      let rest := retryAux is2xx maxRetries fuel (attempt + 1) (2 * delay)
      ⟨rest.posts + 1, delay :: rest.sleeps, rest.dropped⟩

/-- `_forward_with_retries` (`app/services/forwarder.py`): starts at
`attempt = 0`, `delay = base`. -/
def forwardWithRetries (is2xx : Nat → Bool) (maxRetries : Nat) (base : ℚ) : RetryRun :=
  retryAux is2xx maxRetries (maxRetries + 1) 0 base

/-- Success check of an attempt: `200 <= resp.status_code < 300`, from a
downstream modelled as a status code per attempt index. -/
def is2xxOf (status : Nat → Nat) (attempt : Nat) : Bool :=
  decide (200 ≤ status attempt) && decide (status attempt < 300)

/-! ### Account construction (`sia_server.py`) -/

/-- `SIAAccount` as constructed by `_build_accounts`
(`app/services/sia_server.py`).  The `device_timezone` argument is an
opaque `ZoneInfo` object (with a never-failing UTC fallback) and is not
modelled; `allowed_timeband` is the configured symmetric window. -/
structure SIAAccount where
  account_id : String
  key : Option String
  allowed_timeband : Nat × Nat
deriving Repr, DecidableEq

/-- Placeholder account used with `List.getD`. -/
def dummyAccount : SIAAccount := ⟨"", none, (0, 0)⟩

/-- `_build_accounts` (`app/services/sia_server.py`): for each account id
at index `i`, `key = keys[i] if i < len(keys) else ""`, `key = key or None`;
a present key whose length is not 16/24/32 raises `ValueError` (modelled
as `Except.error`); otherwise an account is built with that key (or no
key). -/
def buildAccounts (ids keys : List String) (timeband : Nat) : Except String (List SIAAccount) :=
  match ids with
  | [] => .ok []
  | a :: rest =>
    let key0 := keys.headD ""
    if key0 ≠ "" ∧ ¬(key0.length = 16 ∨ key0.length = 24 ∨ key0.length = 32) then
      .error ("AES key for account " ++ a ++ " must be 16/24/32 chars, got " ++
        toString key0.length)
    else
      match buildAccounts rest keys.tail timeband with
      | .error e => .error e
      | .ok accs =>
        .ok ({ account_id := a
               key := if key0 = "" then none else some key0
               allowed_timeband := (timeband, timeband) } :: accs)

/-! ## Theorems -/

/-- C1: the receiver's enqueue (`await forward_queue.put(item)`) never
drops an item — it always appends, for every queue state — because the
global `forward_queue` is created with the default `maxsize` 0
(unbounded), so the queue is never full (shown at a 1024-item state, the
spec's recommended bound).  This contradicts the claimed non-blocking
offer-and-drop-on-full backpressure policy. -/
theorem onEvent_enqueue_never_drops :
    (∀ (q : List ForwardItem) (it : ForwardItem), onEventEnqueue q it = .done (q ++ [it])) ∧
    asyncioQueueFull forward_queue_maxsize (List.replicate 1024 {}) = false ∧
    forward_queue_maxsize = 0 :=
  ⟨fun _ _ => rfl, rfl, rfl⟩

/-- C2 counterexample: with `max_retries = 3`, `base_delay = 1` and a
downstream that always answers 500, the run does NOT sleep the delays
`[base, 2*base, 4*base]`: only two delays are slept between the three
attempts. -/
theorem retry_sleeps_counterexample :
    ¬((forwardWithRetries (is2xxOf fun _ => 500) 3 1).posts = 3 ∧
      (forwardWithRetries (is2xxOf fun _ => 500) 3 1).dropped = true ∧
      (forwardWithRetries (is2xxOf fun _ => 500) 3 1).sleeps = [1, 2, 4]) := by
  have hrun : forwardWithRetries (is2xxOf fun _ => 500) 3 1 =
      { posts := 3, sleeps := [1, 2], dropped := true } := by
    norm_num [forwardWithRetries, retryAux, is2xxOf]
  rw [hrun]
  intro h
  simpa using h.2.2

/-- C2 (amended): with `max_retries = 3` and a downstream that always
returns status 500, `_forward_with_retries` performs exactly 3 POST
attempts and then drops the item; the delays slept between the attempts
are `base_delay` and `2*base_delay` (two sleeps separate three attempts;
`4*base_delay` is computed but never slept). -/
theorem retry_budget_three_attempts (base : ℚ) (status : Nat → Nat)
    (h : ∀ n, status n = 500) :
    forwardWithRetries (is2xxOf status) 3 base =
      { posts := 3, sleeps := [base, 2 * base], dropped := true } := by
  have h2 : ∀ n, is2xxOf status n = false := by
    intro n; simp [is2xxOf, h n]
  simp [forwardWithRetries, retryAux, h2]

/-- C2 witness: the amended retry-budget theorem instantiated at
`base_delay = 1` against the constant-500 downstream. -/
theorem retry_budget_three_attempts_witness :
    forwardWithRetries (is2xxOf fun _ => 500) 3 1 =
      { posts := 3, sleeps := [1, 2], dropped := true } := by
  have h := retry_budget_three_attempts 1 (fun _ => 500) (fun _ => rfl)
  simpa using h

/-- C3: `calculate_crc` applied to the fixed body
`"SIA-DCS"0001R1L1#AAA[#AAA|NBA001]` agrees with the CRC-16/ARC value
(initial 0x0000, polynomial 0xA001, reflected, no final XOR) rendered as
4 uppercase hex characters, namely `C520`. -/
theorem crc_fixed_vector_matches_arc :
    calculate_crc (strCodes "\"SIA-DCS\"0001R1L1#AAA[#AAA|NBA001]") =
      format04X (crc16_arc_spec (pyEncode (strCodes "\"SIA-DCS\"0001R1L1#AAA[#AAA|NBA001]"))) ∧
    calculate_crc (strCodes "\"SIA-DCS\"0001R1L1#AAA[#AAA|NBA001]") = strCodes "C520" := by
  exact ⟨by decide, by decide⟩

/-- C5: the mapped payload has `is_heartbeat = true` iff the item's code,
uppercased, is in the configured heartbeat set — `HEARTBEAT_CODES` when
non-empty, else the default `{RP, NP, YK, HE, HB}`.  The hypothesis
`"" ∉ heartbeatCodes` reflects the config parser, which filters empty
entries out of `HEARTBEAT_CODES`. -/
theorem heartbeat_iff_code_in_configured_set (heartbeatCodes : List String)
    (tzOffset now : Nat) (e : ForwardItem) (hne : "" ∉ heartbeatCodes) :
    (mapToSarasPayload heartbeatCodes tzOffset now e).is_heartbeat = true ↔
      ∃ c, e.code = some c ∧
        pyUpper c ∈ (if heartbeatCodes.isEmpty then DEFAULT_HEARTBEAT_CODES
                     else heartbeatCodes) := by
  show isHeartbeat heartbeatCodes e.code = true ↔ _
  cases hc : e.code with
  | none => simp [isHeartbeat]
  | some c =>
    by_cases hce : c = ""
    · subst hce
      simp only [isHeartbeat, if_pos rfl]
      constructor
      · intro h; exact absurd h (by simp)
      · rintro ⟨c', hc', hmem⟩
        obtain rfl : "" = c' := by simpa using hc'
        rw [show pyUpper "" = "" from rfl] at hmem
        by_cases hE : heartbeatCodes.isEmpty
        · rw [if_pos hE] at hmem
          exact absurd hmem (by decide)
        · rw [if_neg hE] at hmem
          exact absurd hmem hne
    · simp [isHeartbeat, hce]

/-- C5 witness: the heartbeat theorem instantiated with an empty
configured list (so the default set applies) and code `YK`. -/
theorem heartbeat_iff_witness :
    (mapToSarasPayload [] 0 0 { code := some "YK" }).is_heartbeat = true := by
  exact (heartbeat_iff_code_in_configured_set [] 0 0 { code := some "YK" }
    (by simp)).mpr ⟨"YK", rfl, by decide⟩

/-- C6: the mapped partition is the partition string left-zero-padded to
width 2 and the mapped zone is the zone string left-zero-padded to width
3 (`"2"` → `"02"`, `"5"` → `"005"`); an absent field maps to null; a
present zone `"000"` is preserved as `"000"`. -/
theorem zero_padding_partition_zone (heartbeatCodes : List String)
    (tzOffset now : Nat) (e : ForwardItem) :
    (e.partition = none → (mapToSarasPayload heartbeatCodes tzOffset now e).partition = none) ∧
    (∀ s, e.partition = some s → s ≠ "" →
      (mapToSarasPayload heartbeatCodes tzOffset now e).partition = some (pyZfill s 2)) ∧
    (e.zone = none → (mapToSarasPayload heartbeatCodes tzOffset now e).zone = none) ∧
    (∀ s, e.zone = some s → s ≠ "" →
      (mapToSarasPayload heartbeatCodes tzOffset now e).zone = some (pyZfill s 3)) ∧
    (e.zone = some "000" → (mapToSarasPayload heartbeatCodes tzOffset now e).zone = some "000") ∧
    pyZfill "2" 2 = "02" ∧ pyZfill "5" 3 = "005" := by
  refine ⟨?_, ?_, ?_, ?_, ?_, by decide, by decide⟩
  · intro h; simp [mapToSarasPayload, h]
  · intro s hs hne; simp [mapToSarasPayload, hs, hne]
  · intro h; simp [mapToSarasPayload, h]
  · intro s hs hne; simp [mapToSarasPayload, hs, hne]
  · intro h
    have := (by decide : pyZfill "000" 3 = "000")
    simp [mapToSarasPayload, h, this]

/-- C6 witness: the zero-padding theorem instantiated at a concrete item
with partition `"2"` and zone `"5"`, and at items with zone `"000"` and
with the fields absent. -/
theorem zero_padding_witness :
    (mapToSarasPayload [] 0 0 { partition := some "2", zone := some "5" }).partition =
      some "02" ∧
    (mapToSarasPayload [] 0 0 { partition := some "2", zone := some "5" }).zone = some "005" ∧
    (mapToSarasPayload [] 0 0 { zone := some "000" }).zone = some "000" ∧
    (mapToSarasPayload [] 0 0 {}).partition = none ∧
    (mapToSarasPayload [] 0 0 {}).zone = none := by
  refine ⟨?_, ?_, ?_, ?_, ?_⟩
  · exact ((zero_padding_partition_zone [] 0 0 _).2.1 "2" rfl (by decide)).trans (by decide)
  · exact ((zero_padding_partition_zone [] 0 0 _).2.2.2.1 "5" rfl (by decide)).trans (by decide)
  · exact (zero_padding_partition_zone [] 0 0 _).2.2.2.2.1 rfl
  · exact (zero_padding_partition_zone [] 0 0 _).1 rfl
  · exact (zero_padding_partition_zone [] 0 0 _).2.2.1 rfl

/-- C7: the mapped timestamp is the event instant rendered in the
application timezone (default `Asia/Jakarta`, UTC+07:00) as
`YYYY-MM-DD HH:MM:SS`; when the item has no timestamp the clock's "now"
(a UTC instant) is used before the conversion.  The instant 1760946770
reads `2025-10-20 07:52:50` in UTC and renders `2025-10-20 14:52:50` in
`Asia/Jakarta`. -/
theorem timezone_rendering (heartbeatCodes : List String) (e : ForwardItem) (now : Nat) :
    ((mapToSarasPayload heartbeatCodes jakartaOffset now e).timestamp =
      toJakartaTimestamp jakartaOffset e.timestamp now) ∧
    (∀ t, e.timestamp = some t →
      (mapToSarasPayload heartbeatCodes jakartaOffset now e).timestamp =
        formatDateTime (t + jakartaOffset)) ∧
    (e.timestamp = none →
      (mapToSarasPayload heartbeatCodes jakartaOffset now e).timestamp =
        formatDateTime (now + jakartaOffset)) ∧
    formatDateTime 1760946770 = "2025-10-20 07:52:50" ∧
    toJakartaTimestamp jakartaOffset (some 1760946770) 0 = "2025-10-20 14:52:50" := by
  refine ⟨rfl, ?_, ?_, by decide, by decide⟩
  · intro t ht; simp [mapToSarasPayload, toJakartaTimestamp, ht]
  · intro ht; simp [mapToSarasPayload, toJakartaTimestamp, ht]

/-- C7 witness: the timezone theorem instantiated at an item carrying the
instant 2025-10-20T07:52:50Z and at an item with no timestamp under a
clock at that instant; both render `2025-10-20 14:52:50`. -/
theorem timezone_rendering_witness :
    (mapToSarasPayload [] jakartaOffset 0 { timestamp := some 1760946770 }).timestamp =
      "2025-10-20 14:52:50" ∧
    (mapToSarasPayload [] jakartaOffset 1760946770 {}).timestamp = "2025-10-20 14:52:50" := by
  constructor
  · exact ((timezone_rendering [] { timestamp := some 1760946770 } 0).2.1
      1760946770 rfl).trans (by decide)
  · exact ((timezone_rendering [] {} 1760946770).2.2.1 rfl).trans (by decide)

/-- C9: every extras value is rendered with embedded double quotes
escaped as `\"`, but the raw frame is appended verbatim inside
`raw="..."`: an item whose raw field contains a double quote yields an
`extra_message` in which that quote appears unescaped. -/
theorem extras_escaped_but_raw_verbatim :
    (∀ k v, extrasToMessage [(k, some v)] = k ++ "=\"" ++ escapeQuotes v ++ "\"") ∧
    escapeQuotes "a\"b" = "a\\\"b" ∧
    (mapToSarasPayload [] 0 0
        { extras := [("k", some "a\"b")], raw := some "x\"y" }).extra_message =
      "k=\"a\\\"b\" raw=\"x\"y\"" := by
  exact ⟨fun k v => rfl, by decide, by decide⟩

/-- Entries of `extras` whose value is `None` are skipped when building
the message string: filtering them away leaves `_extras_to_message`
unchanged. -/
theorem extrasToMessage_filter_isSome (l : List (String × Option String)) :
    extrasToMessage (l.filter fun kv => kv.2.isSome) = extrasToMessage l := by
  unfold extrasToMessage
  congr 1
  induction l with
  | nil => rfl
  | cons kv rest ih =>
    obtain ⟨k, v⟩ := kv
    cases v <;> simp [ih]

/-- C10: the mapper treats empty strings at its interface as absent
values: code `""` (or `None`) yields event `"UNKN"` and
`is_heartbeat = false`; partition `""` and zone `""` yield null; account
`None` yields account code `""`; and extras entries with `None` values
are omitted from `extra_message` (filtering them away changes nothing). -/
theorem empty_string_treated_as_absent (heartbeatCodes : List String)
    (tzOffset now : Nat) (e : ForwardItem) :
    ((e.code = some "" ∨ e.code = none) →
      (mapToSarasPayload heartbeatCodes tzOffset now e).event = "UNKN" ∧
      (mapToSarasPayload heartbeatCodes tzOffset now e).is_heartbeat = false) ∧
    (e.partition = some "" →
      (mapToSarasPayload heartbeatCodes tzOffset now e).partition = none) ∧
    (e.zone = some "" → (mapToSarasPayload heartbeatCodes tzOffset now e).zone = none) ∧
    (e.account = none →
      (mapToSarasPayload heartbeatCodes tzOffset now e).account_code = "") ∧
    (mapToSarasPayload heartbeatCodes tzOffset now
        { e with extras := e.extras.filter fun kv => kv.2.isSome }).extra_message =
      (mapToSarasPayload heartbeatCodes tzOffset now e).extra_message := by
  refine ⟨?_, ?_, ?_, ?_, ?_⟩
  · rintro (h | h) <;> exact ⟨by simp [mapToSarasPayload, h], by simp [mapToSarasPayload, isHeartbeat, h]⟩
  · intro h; simp [mapToSarasPayload, h]
  · intro h; simp [mapToSarasPayload, h]
  · intro h; simp [mapToSarasPayload, h]
  · simp [mapToSarasPayload, extrasToMessage_filter_isSome]

/-- C10 witness: the empty-string theorem instantiated at a concrete item
having all the degenerate fields at once. -/
theorem empty_string_witness :
    (mapToSarasPayload [] 0 0
      { code := some "", partition := some "", zone := some "", account := none,
        extras := [("a", none), ("b", some "1")] }).event = "UNKN" ∧
    (mapToSarasPayload [] 0 0
      { code := some "", partition := some "", zone := some "", account := none,
        extras := [("a", none), ("b", some "1")] }).is_heartbeat = false ∧
    (mapToSarasPayload [] 0 0
      { code := some "", partition := some "", zone := some "", account := none,
        extras := [("a", none), ("b", some "1")] }).partition = none ∧
    (mapToSarasPayload [] 0 0
      { code := some "", partition := some "", zone := some "", account := none,
        extras := [("a", none), ("b", some "1")] }).zone = none ∧
    (mapToSarasPayload [] 0 0
      { code := some "", partition := some "", zone := some "", account := none,
        extras := [("a", none), ("b", some "1")] }).account_code = "" := by
  have h := empty_string_treated_as_absent [] 0 0
    { code := some "", partition := some "", zone := some "", account := none,
      extras := [("a", none), ("b", some "1")] }
  exact ⟨(h.1 (Or.inl rfl)).1, (h.1 (Or.inl rfl)).2, h.2.1 rfl, h.2.2.1 rfl, h.2.2.2.1 rfl⟩

/-- List `tail` shifts `getD` indices by one. -/
theorem tail_getD (l : List String) (i : Nat) (d : String) :
    l.tail.getD i d = l.getD (i + 1) d := by
  cases l <;> simp

/-- List `headD` is `getD` at index 0. -/
theorem headD_eq_getD (l : List String) (d : String) : l.headD d = l.getD 0 d := by
  cases l <;> rfl

/-- Unfolding of `buildAccounts` at a cons cell. -/
theorem buildAccounts_cons (a : String) (rest keys : List String) (tb : Nat) :
    buildAccounts (a :: rest) keys tb =
      if keys.headD "" ≠ "" ∧ ¬((keys.headD "").length = 16 ∨ (keys.headD "").length = 24 ∨
          (keys.headD "").length = 32) then
        .error ("AES key for account " ++ a ++ " must be 16/24/32 chars, got " ++
          toString (keys.headD "").length)
      else
        match buildAccounts rest keys.tail tb with
        | .error e => .error e
        | .ok accs =>
          .ok ({ account_id := a
                 key := if keys.headD "" = "" then none else some (keys.headD "")
                 allowed_timeband := (tb, tb) } :: accs) := rfl

/-- Account construction fails exactly when some index carries a
non-empty key of invalid length. -/
theorem buildAccounts_error_iff (ids : List String) (tb : Nat) : ∀ keys : List String,
    (∃ e, buildAccounts ids keys tb = .error e) ↔
      ∃ i, i < ids.length ∧ keys.getD i "" ≠ "" ∧
        ¬((keys.getD i "").length = 16 ∨ (keys.getD i "").length = 24 ∨
          (keys.getD i "").length = 32) := by
  induction ids with
  | nil => intro keys; simp [buildAccounts]
  | cons a rest ih =>
    intro keys
    by_cases hbad : keys.headD "" ≠ "" ∧
        ¬((keys.headD "").length = 16 ∨ (keys.headD "").length = 24 ∨
          (keys.headD "").length = 32)
    · constructor
      · intro _
        refine ⟨0, by simp, ?_, ?_⟩
        · rw [← headD_eq_getD]; exact hbad.1
        · rw [← headD_eq_getD]; exact hbad.2
      · intro _
        exact ⟨_, by rw [buildAccounts_cons, if_pos hbad]⟩
    · rw [buildAccounts_cons, if_neg hbad]
      cases hrec : buildAccounts rest keys.tail tb with
      | error e =>
        constructor
        · intro _
          obtain ⟨j, hj, h1, h2⟩ := (ih keys.tail).mp ⟨e, hrec⟩
          rw [tail_getD] at h1 h2
          exact ⟨j + 1, by simpa using hj, h1, h2⟩
        · intro _
          exact ⟨e, rfl⟩
      | ok l =>
        constructor
        · rintro ⟨e, habs⟩
          exact absurd habs (by simp)
        · rintro ⟨i, hi, h1, h2⟩
          cases i with
          | zero =>
            rw [← headD_eq_getD] at h1 h2
            exact absurd ⟨h1, h2⟩ hbad
          | succ j =>
            rw [← tail_getD] at h1 h2
            obtain ⟨e, he⟩ := (ih keys.tail).mpr ⟨j, by simpa using hi, h1, h2⟩
            exact absurd (hrec.symm.trans he) (by simp)

/-- When account construction succeeds, the accounts align with the ids
and an account is unencrypted exactly when its key entry is empty or
missing. -/
theorem buildAccounts_ok_spec (ids : List String) (tb : Nat) :
    ∀ (keys : List String) (accs : List SIAAccount),
    buildAccounts ids keys tb = .ok accs →
      accs.length = ids.length ∧ ∀ i, i < ids.length →
        (accs.getD i dummyAccount).account_id = ids.getD i "" ∧
        ((accs.getD i dummyAccount).key = none ↔ keys.getD i "" = "") := by
  induction ids with
  | nil =>
    intro keys accs h
    obtain rfl : accs = [] := by
      have : (Except.ok [] : Except String (List SIAAccount)) = .ok accs := h
      simpa using this.symm
    simp
  | cons a rest ih =>
    intro keys accs h
    rw [buildAccounts_cons] at h
    by_cases hbad : keys.headD "" ≠ "" ∧
        ¬((keys.headD "").length = 16 ∨ (keys.headD "").length = 24 ∨
          (keys.headD "").length = 32)
    · rw [if_pos hbad] at h; exact absurd h (by simp)
    · rw [if_neg hbad] at h
      cases hrec : buildAccounts rest keys.tail tb with
      | error e => rw [hrec] at h; exact absurd h (by simp)
      | ok l =>
        rw [hrec] at h
        obtain rfl : accs =
            (⟨a, if keys.headD "" = "" then none else some (keys.headD ""), (tb, tb)⟩ :
              SIAAccount) :: l := by
          simpa using h.symm
        obtain ⟨hlen, hspec⟩ := ih keys.tail l hrec
        refine ⟨by simpa using hlen, ?_⟩
        intro i hi
        cases i with
        | zero =>
          refine ⟨by simp, ?_⟩
          rw [← headD_eq_getD]
          by_cases hk : keys.headD "" = "" <;> simp [hk]
        | succ j =>
          have := hspec j (by simpa using hi)
          simpa [tail_getD] using this

/-- C8: `_build_accounts` raises (an unrecoverable startup error) if and
only if some account index carries a present, non-empty key whose length
is not 16, 24 or 32; on success the accounts align with the ids and every
account whose key entry is empty or missing is unencrypted (`key = None`). -/
theorem build_accounts_key_validation (ids keys : List String) (tb : Nat) :
    ((∃ e, buildAccounts ids keys tb = .error e) ↔
      ∃ i, i < ids.length ∧ keys.getD i "" ≠ "" ∧
        ¬((keys.getD i "").length = 16 ∨ (keys.getD i "").length = 24 ∨
          (keys.getD i "").length = 32)) ∧
    (∀ accs, buildAccounts ids keys tb = .ok accs →
      accs.length = ids.length ∧ ∀ i, i < ids.length →
        (accs.getD i dummyAccount).account_id = ids.getD i "" ∧
        ((accs.getD i dummyAccount).key = none ↔ keys.getD i "" = "")) :=
  ⟨buildAccounts_error_iff ids tb keys, fun accs h => buildAccounts_ok_spec ids tb keys accs h⟩

/-- C8 witness: a 10-character key makes construction fail; with a single
16-character key for account `AAA` and no key entry for account `BBB`,
construction succeeds and `BBB` is unencrypted. -/
theorem build_accounts_key_validation_witness :
    (∃ e, buildAccounts ["AAA"] ["0123456789"] 40 = .error e) ∧
    ((buildAccounts ["AAA", "BBB"] ["0123456789ABCDEF"] 40).toOption.getD []).length = 2 ∧
    ((((buildAccounts ["AAA", "BBB"] ["0123456789ABCDEF"] 40).toOption.getD []).getD 1
        dummyAccount).key = none) := by
  have hok : buildAccounts ["AAA", "BBB"] ["0123456789ABCDEF"] 40 =
      .ok [{ account_id := "AAA", key := some "0123456789ABCDEF", allowed_timeband := (40, 40) },
           { account_id := "BBB", key := none, allowed_timeband := (40, 40) }] := by
    rfl
  have h2 := (build_accounts_key_validation ["AAA", "BBB"] ["0123456789ABCDEF"] 40).2 _ hok
  refine ⟨?_, ?_, ?_⟩
  · exact (build_accounts_key_validation ["AAA"] ["0123456789"] 40).1.mpr
      ⟨0, by decide, by decide, by decide⟩
  · rw [hok]; exact h2.1
  · rw [hok]; exact (h2.2 1 (by decide)).2.mpr rfl

/-- UTF-8 encoding of an all-ASCII string has one byte per character. -/
theorem pyEncode_length_of_ascii (s : PyStr) (h : ∀ ch ∈ s, ch < 128) :
    (pyEncode s).length = s.length := by
  induction s with
  | nil => rfl
  | cons c rest ih =>
    have hc : c < 128 := h c (List.mem_cons_self c rest)
    have hrest := ih fun x hx => h x (List.mem_cons_of_mem _ hx)
    simp only [pyEncode, List.flatMap_cons, List.length_append, List.length_cons] at hrest ⊢
    simp [utf8Bytes, hc, hrest]
    omega

/-- Uppercase hexadecimal digit codes: `'0'`–`'9'` and `'A'`–`'F'`. -/
def isHexUpperCode (c : Nat) : Bool :=
  (decide (48 ≤ c) && decide (c ≤ 57)) || (decide (65 ≤ c) && decide (c ≤ 70))

/-- Every character produced by the base-16 `Nat.toDigitsCore` uppercases
to a hexadecimal digit. -/
theorem toDigitsCore_hexUpper (f : Nat) :
    ∀ (n : Nat) (acc : List Char),
      (∀ ch ∈ acc, isHexUpperCode (Char.toUpper ch).toNat = true) →
      ∀ ch ∈ Nat.toDigitsCore 16 f n acc, isHexUpperCode (Char.toUpper ch).toNat = true := by
  have hdigit : ∀ d, d < 16 → isHexUpperCode (Char.toUpper (Nat.digitChar d)).toNat = true := by
    decide
  induction f with
  | zero => intro n acc hacc; simpa [Nat.toDigitsCore] using hacc
  | succ f ih =>
    intro n acc hacc
    simp only [Nat.toDigitsCore]
    by_cases hnb : n / 16 = 0
    · rw [if_pos hnb]
      intro ch hch
      rcases List.mem_cons.mp hch with rfl | hch
      · exact hdigit _ (Nat.mod_lt _ (by norm_num))
      · exact hacc ch hch
    · rw [if_neg hnb]
      refine ih (n / 16) _ ?_
      intro ch hch
      rcases List.mem_cons.mp hch with rfl | hch
      · exact hdigit _ (Nat.mod_lt _ (by norm_num))
      · exact hacc ch hch

/-- For values below 16^4 the `{:04X}` rendering is exactly 4 characters,
all uppercase hexadecimal digits. -/
theorem format04X_spec (n : Nat) (h : n < 65536) :
    (format04X n).length = 4 ∧ ∀ ch ∈ format04X n, isHexUpperCode ch = true := by
  have hlen : (Nat.toDigits 16 n).length ≤ 4 := by
    have := Nat.toDigitsCore_length 16 (by norm_num) (n + 1) n 4 (by norm_num; omega)
      (by norm_num)
    simpa [Nat.toDigits] using this
  constructor
  · simp only [format04X, List.length_append, List.length_replicate, List.length_map]
    omega
  · intro ch hch
    simp only [format04X, List.mem_append, List.mem_replicate, List.mem_map] at hch
    rcases hch with ⟨_, rfl⟩ | ⟨b, ⟨d, hd, rfl⟩, rfl⟩
    · decide
    · exact toDigitsCore_hexUpper (n + 1) n [] (by simp) d hd

/-- C4 (amended): every message built by `build_sia_message` is
`<CRC><LENGTH><body>` with the CRC component equal to
`calculate_crc(body)`; the LENGTH component is `f"{len(body):04X}"` where
`len` counts characters — this equals the rendered UTF-8 byte length
whenever the body is pure ASCII — and it consists of exactly 4 uppercase
hex characters whenever the body is shorter than 65536 characters. -/
theorem build_message_structure (a : PyStr) (sq : Nat) (ts c z p r x : PyStr) :
    build_sia_message a sq ts c z p r x =
      calculate_crc (sia_body a sq ts c z p r x) ++
        format04X (sia_body a sq ts c z p r x).length ++ sia_body a sq ts c z p r x ∧
    ((∀ ch ∈ sia_body a sq ts c z p r x, ch < 128) →
      format04X (sia_body a sq ts c z p r x).length =
        format04X (pyEncode (sia_body a sq ts c z p r x)).length) ∧
    ((sia_body a sq ts c z p r x).length < 65536 →
      (format04X (sia_body a sq ts c z p r x).length).length = 4 ∧
      ∀ ch ∈ format04X (sia_body a sq ts c z p r x).length, isHexUpperCode ch = true) := by
  refine ⟨rfl, ?_, fun h => format04X_spec _ h⟩
  intro h
  rw [pyEncode_length_of_ascii _ h]

/-- C4 witness: the structure theorem instantiated at an all-ASCII
message (account `AAA`, code `BA`, zone `001`). -/
theorem build_message_structure_witness :
    build_sia_message (strCodes "AAA") 0 (strCodes "_07:52:50,10-20-2025") (strCodes "BA")
        (strCodes "001") (strCodes "1") (strCodes "1") [] =
      calculate_crc (sia_body (strCodes "AAA") 0 (strCodes "_07:52:50,10-20-2025")
          (strCodes "BA") (strCodes "001") (strCodes "1") (strCodes "1") []) ++
        format04X (sia_body (strCodes "AAA") 0 (strCodes "_07:52:50,10-20-2025")
          (strCodes "BA") (strCodes "001") (strCodes "1") (strCodes "1") []).length ++
        sia_body (strCodes "AAA") 0 (strCodes "_07:52:50,10-20-2025")
          (strCodes "BA") (strCodes "001") (strCodes "1") (strCodes "1") [] ∧
    format04X (sia_body (strCodes "AAA") 0 (strCodes "_07:52:50,10-20-2025")
        (strCodes "BA") (strCodes "001") (strCodes "1") (strCodes "1") []).length =
      format04X (pyEncode (sia_body (strCodes "AAA") 0 (strCodes "_07:52:50,10-20-2025")
        (strCodes "BA") (strCodes "001") (strCodes "1") (strCodes "1") [])).length ∧
    (format04X (sia_body (strCodes "AAA") 0 (strCodes "_07:52:50,10-20-2025")
        (strCodes "BA") (strCodes "001") (strCodes "1") (strCodes "1") []).length).length = 4 := by
  have h := build_message_structure (strCodes "AAA") 0 (strCodes "_07:52:50,10-20-2025")
    (strCodes "BA") (strCodes "001") (strCodes "1") (strCodes "1") []
  exact ⟨h.1, h.2.1 (by decide), (h.2.2 (by decide)).1⟩

/-- C4 counterexample: with the non-ASCII account `"Ā"` (code point 256,
two UTF-8 bytes) the declared LENGTH field of the built message (its
characters 4–7) differs from the UTF-8 byte length of the body rendered
the same way, refuting "LENGTH equals the byte length of the body". -/
theorem build_message_length_counterexample :
    ((build_sia_message [256] 0 (strCodes "_07:52:50,10-20-2025") (strCodes "BA")
        (strCodes "001") (strCodes "1") (strCodes "1") []).drop 4).take 4 ≠
      format04X (pyEncode (sia_body [256] 0 (strCodes "_07:52:50,10-20-2025") (strCodes "BA")
        (strCodes "001") (strCodes "1") (strCodes "1") [])).length := by
  decide

end SiaDC
